import Mathlib

/-!
Verification development for the parkingslot repository.

Shallow embedding conventions:
* JavaScript `Date.getTime()` values are modelled as `Int` milliseconds since
  the Unix epoch; the runtime is modelled as DST-free (UTC), so local-time
  Date arithmetic coincides with millisecond arithmetic.
* A reservation's `date` field (a `"YYYY-MM-DD"` string) is modelled as the
  epoch-day number of that calendar date; `new Date(date).getTime()` is then
  `date * msPerDay` (UTC midnight).
* JavaScript numbers that hold penalty points or multipliers are modelled as
  `ℚ` (they may be fractional via `parseFloat`).
* `Math.ceil(a / b)` on exact integer ratios is modelled by `jsCeilDiv`.
-/

namespace Parkingslot

def msPerHour : Int := 3600000

def msPerDay : Int := 86400000

def msPerWeek : Int := 604800000

/-- `Math.ceil(a / b)` for integers `a`, `b > 0` (the divisions in this code
base are exact rational divisions of integer millisecond values). -/
def jsCeilDiv (a b : Int) : Int := -((-a) / b)

/-- `Math.abs` on integers. -/
def jsAbs (a : Int) : Int := (a.natAbs : Int)

/-- `Date.prototype.getDay()` (0 = Sunday) of a millisecond timestamp:
the epoch day is floored out of the timestamp and 1970-01-01 was a Thursday
(day 4). -/
def dowMs (ms : Int) : Int := (ms / msPerDay + 4) % 7

/-- Result record of the two calculators in the penalty-calculator modules
(`PenaltyCalculation` in the source). -/
structure PenaltyCalculation where
  points : ℚ
  reason : String
  ptype : String
deriving Repr, DecidableEq

/-- Reason template of the day-bucket booking calculator:
`` `${periods} penalty period${periods > 1 ? 's' : ''} in advance` ``. -/
def periodReason (n : Int) : String :=
  toString n ++ " penalty period" ++ (if 1 < n then "s" else "") ++ " in advance"

/-- `calculateReservationPenalty` from the unnamed penalty-calculator module
(src/unnamed/part_002): fixed-10-day-bucket variant.  `resMs` is
`new Date(reservationDate).getTime()`, `nowMs` is `new Date().getTime()`. -/
def calculateReservationPenalty (resMs nowMs : Int) (weeklyMultiplier : ℚ) :
    PenaltyCalculation :=
  if jsCeilDiv (resMs - nowMs) msPerDay ≤ 10 then
    { points := 0
      reason := "No penalty for reservations made within the first 10 days"
      ptype := "none" }
  else
    { points := ((jsCeilDiv (jsCeilDiv (resMs - nowMs) msPerDay) 10 - 1 : Int) : ℚ) *
        weeklyMultiplier
      reason := periodReason (jsCeilDiv (jsCeilDiv (resMs - nowMs) msPerDay) 10 - 1)
      ptype := "future_day" }

/-- `calculateCancellationPenalty` (identical in src/unnamed/part_002 and
src/client/src/lib/penalty-calculator.ts): flat charge under 12 hours. -/
def calculateCancellationPenalty (resMs nowMs : Int) (lateCancelMultiplier : ℚ) :
    PenaltyCalculation :=
  if 12 ≤ ((resMs - nowMs : Int) : ℚ) / 3600000 then
    { points := 0
      reason := "No penalty for early cancellation"
      ptype := "none" }
  else
    { points := lateCancelMultiplier
      reason := "Cancelled less than 12 hours before reservation"
      ptype := "late_cancellation" }

/-- Week start used by the server route handler (src/server/routes.ts):
`d.setDate(d.getDate() - d.getDay())` subtracts the day-of-week in days while
keeping the time of day. -/
def routesWeekStart (ms : Int) : Int := ms - dowMs ms * msPerDay

/-- `getWeeksDifference` from src/server/routes.ts:
`ceil(ceil(|d2 - d1| / day) / 7)`. -/
def getWeeksDifference (d1 d2 : Int) : Int :=
  jsCeilDiv (jsCeilDiv (jsAbs (d2 - d1)) msPerDay) 7

/-- Booking-penalty points as computed by the server's reservation-creation
handler (src/server/routes.ts, penalty block): week-aligned variant. -/
def serverBookingPoints (resDays : Int) (nowMs : Int) (weeklyMultiplier : ℚ) : ℚ :=
  if routesWeekStart nowMs < routesWeekStart (resDays * msPerDay) then
    (getWeeksDifference (routesWeekStart nowMs) (routesWeekStart (resDays * msPerDay)) : ℚ) *
      weeklyMultiplier
  else 0

/-- `startOfWeek(d, { weekStartsOn: 0 })` of date-fns: midnight of the Sunday
of `d`'s week (time of day zeroed). -/
def startOfWeekMs (ms : Int) : Int := (ms / msPerDay - dowMs ms) * msPerDay

/-- Booking-penalty points as computed by the client preview calculator
(src/client/src/lib/penalty-calculator.ts `calculateReservationPenalty`):
week-aligned variant via `differenceInWeeks`.  In the non-exempt branch the
difference of the two Sunday midnights is positive, so date-fns's
truncate-toward-zero division coincides with the floor division used here. -/
def clientBookingPoints (resDays : Int) (nowMs : Int) (weeklyMultiplier : ℚ) : ℚ :=
  if startOfWeekMs (resDays * msPerDay) ≤ startOfWeekMs nowMs then 0
  else
    (jsAbs ((startOfWeekMs (resDays * msPerDay) - startOfWeekMs nowMs) / msPerWeek) : ℚ) *
      weeklyMultiplier

/-- Booking-penalty points of the mirrored day-bucket calculator
(src/unnamed/part_002), applied to a `"YYYY-MM-DD"` reservation date. -/
def part002BookingPoints (resDays : Int) (nowMs : Int) (weeklyMultiplier : ℚ) : ℚ :=
  (calculateReservationPenalty (resDays * msPerDay) nowMs weeklyMultiplier).points

/-! ### Data model (shared/schema.ts plus the `suspended` flag added by the
storage backends).  The `createdAt` timestamps play no role in any operation
and are omitted. -/

structure User where
  id : Int
  username : String
  password : String
  role : String
  penaltyPoints : ℚ
  suspended : Bool
deriving Repr, DecidableEq

structure Reservation where
  id : Int
  userId : Int
  slot : String
  date : Int
  status : String
deriving Repr, DecidableEq

structure Penalty where
  id : Int
  userId : Int
  reservationId : Option Int
  ptype : String
  points : ℚ
  reason : String
deriving Repr, DecidableEq

/-- Numeric value of a digit run. -/
def digitsNat (cs : List Char) : Nat :=
  cs.foldl (fun a c => a * 10 + (c.toNat - 48)) 0

/-- `parseInt(v, 10)`: optional sign, then the leading digit run, trailing
garbage ignored; `none` models the `NaN` result on an empty digit run. -/
def jsParseIntTen (s : String) : Option Int :=
  match s.data with
  | '-' :: rest =>
    if (rest.takeWhile Char.isDigit).isEmpty then none
    else some (-(digitsNat (rest.takeWhile Char.isDigit) : Int))
  | cs =>
    if (cs.takeWhile Char.isDigit).isEmpty then none
    else some ((digitsNat (cs.takeWhile Char.isDigit) : Int))

/-- Magnitude part of `parseFloat`: leading digit run, optional fraction after
a dot, trailing garbage ignored; `none` models `NaN` (no leading numeric
part).  Exponent forms and `Infinity` do not occur for the numeric settings
this program stores. -/
def parseFloatMag (cs : List Char) : Option ℚ :=
  match cs.drop (cs.takeWhile Char.isDigit).length with
  | '.' :: rest =>
    if (cs.takeWhile Char.isDigit).isEmpty ∧ (rest.takeWhile Char.isDigit).isEmpty then
      none
    else
      some ((digitsNat (cs.takeWhile Char.isDigit) : ℚ) +
        (digitsNat (rest.takeWhile Char.isDigit) : ℚ) /
          (10 : ℚ) ^ (rest.takeWhile Char.isDigit).length)
  | _ =>
    if (cs.takeWhile Char.isDigit).isEmpty then none
    else some (digitsNat (cs.takeWhile Char.isDigit) : ℚ)

/-- `parseFloat(v)` with an optional leading minus sign. -/
def jsParseFloatQ (s : String) : Option ℚ :=
  match s.data with
  | '-' :: rest => (parseFloatMag rest).map (fun q => -q)
  | cs => parseFloatMag cs

/-- Key/value lookup in a settings store (the source keeps a `Map`/table keyed
by `key`; modelled as an association list). -/
def settingLookup (settings : List (String × String)) (key : String) : Option String :=
  (settings.find? (fun kv => kv.1 == key)).map (fun kv => kv.2)

/-! ### MemStorage (src/server/storage.ts) -/

structure MemState where
  users : List User
  reservations : List Reservation
  penalties : List Penalty
  settings : List (String × String)
  currentReservationId : Int
  currentPenaltyId : Int
deriving Repr, DecidableEq

/-- `MemStorage.getAutoSuspendThreshold`:
`setting ? parseInt(setting.value, 10) : 90`.  `none` models the `NaN` a
non-numeric stored value would produce (every `points >= NaN` comparison is
false, so no suspension fires). -/
def getAutoSuspendThreshold (s : MemState) : Option Int :=
  match settingLookup s.settings "AUTO_SUSPEND_PENALTY_THRESHOLD" with
  | none => some 90
  | some v => jsParseIntTen v

/-- The partial-update records the route handlers pass to
`MemStorage.updateUser` (`Partial<User>`, restricted to the fields any route
actually sends). -/
structure UserUpdate where
  password : Option String := none
  penaltyPoints : Option ℚ := none
  suspended : Option Bool := none
deriving Repr, DecidableEq

/-- `{ ...user, ...updates }`. -/
def applyUserUpdate (u : User) (upd : UserUpdate) : User :=
  { u with
    password := upd.password.getD u.password
    penaltyPoints := upd.penaltyPoints.getD u.penaltyPoints
    suspended := upd.suspended.getD u.suspended }

/-- `MemStorage.updateUser`: merge the partial update, then — since the merged
`penaltyPoints` is always a number (`typeof === "number"` always holds after
the merge) — force `suspended := true` whenever it reaches the auto-suspend
threshold. -/
def memUpdateUser (s : MemState) (id : Int) (upd : UserUpdate) :
    Option User × MemState :=
  match s.users.find? (fun u => u.id == id) with
  | none => (none, s)
  | some user =>
    let merged := applyUserUpdate user upd
    let final :=
      match getAutoSuspendThreshold s with
      | some t => if (t : ℚ) ≤ merged.penaltyPoints then { merged with suspended := true }
                  else merged
      | none => merged
    (some final,
      { s with users := s.users.map (fun u => if u.id == id then final else u) })

/-- The partial-update record the cancel route passes to `updateReservation`
(`{ status: "canceled" }`). -/
structure ReservationUpdate where
  status : Option String := none
deriving Repr, DecidableEq

/-- `MemStorage.updateReservation`: merge the update into the stored
reservation; no penalty or user state is touched. -/
def memUpdateReservation (s : MemState) (id : Int) (upd : ReservationUpdate) :
    Option Reservation × MemState :=
  match s.reservations.find? (fun r => r.id == id) with
  | none => (none, s)
  | some r =>
    let merged := { r with status := upd.status.getD r.status }
    (some merged,
      { s with reservations :=
          s.reservations.map (fun q => if q.id == id then merged else q) })

/-- `WEEKLY_PENALTY_MULTIPLIER` as the reservation route reads it:
`parseFloat(setting?.value || "1")`.  The modelled domain assumes the stored
value is numeric (an unparseable value is `NaN` in JS; `getD 0` below is never
exercised by any theorem, which all fix parseable settings). -/
def memWeeklyMultiplier (s : MemState) : ℚ :=
  (jsParseFloatQ ((settingLookup s.settings "WEEKLY_PENALTY_MULTIPLIER").getD "1")).getD 0

inductive CreateOutcome where
  | notFound
  | forbidden
  | conflict
  | created (r : Reservation)
deriving Repr, DecidableEq

/-- `POST /api/reservations` (src/server/routes.ts) on the in-memory backend:
validation (user exists, not suspended, slot free), then persist the
reservation, then the week-aligned penalty block. -/
def postReservation (s : MemState) (nowMs : Int) (userId : Int) (slot : String)
    (date : Int) : CreateOutcome × MemState :=
  match s.users.find? (fun u => u.id == userId) with
  | none => (.notFound, s)
  | some user =>
    if user.suspended then (.forbidden, s)
    else
      match s.reservations.find?
          (fun r => r.slot == slot && r.date == date && r.status == "active") with
      | some _ => (.conflict, s)
      | none =>
        let resv : Reservation :=
          { id := s.currentReservationId, userId := userId, slot := slot,
            date := date, status := "active" }
        let s1 : MemState :=
          { s with reservations := s.reservations ++ [resv],
                   currentReservationId := s.currentReservationId + 1 }
        if routesWeekStart nowMs < routesWeekStart (date * msPerDay) then
          let weeksDiff :=
            getWeeksDifference (routesWeekStart nowMs) (routesWeekStart (date * msPerDay))
          let penaltyPoints : ℚ := (weeksDiff : ℚ) * memWeeklyMultiplier s1
          let pen : Penalty :=
            { id := s1.currentPenaltyId, userId := userId,
              reservationId := some resv.id, ptype := "future_week",
              points := penaltyPoints,
              reason := "Reserved " ++ toString weeksDiff ++ " week(s) in advance" }
          let s2 : MemState :=
            { s1 with penalties := s1.penalties ++ [pen],
                      currentPenaltyId := s1.currentPenaltyId + 1 }
          match s2.users.find? (fun u => u.id == userId) with
          | some u2 =>
            (.created resv,
              (memUpdateUser s2 userId
                { penaltyPoints := some (u2.penaltyPoints + penaltyPoints) }).2)
          | none => (.created resv, s2)
        else (.created resv, s1)

/-- `POST /api/reservations/:id/cancel` on the in-memory backend: a bare
`updateReservation(id, { status: "canceled" })`, 404 when it returns
undefined. -/
def postCancelMem (s : MemState) (id : Int) : Option Reservation × MemState :=
  memUpdateReservation s id { status := some "canceled" }

/-! ### SQLiteCloudStorage (src/server/sqlitecloud-storage.ts) -/

structure CloudState where
  users : List User
  reservations : List Reservation
  penalties : List Penalty
deriving Repr, DecidableEq

/-- Cloud `updateUser` restricted to the `penaltyPoints` column (the only
field the reservation paths send): a plain SQL `UPDATE`, with no suspension
logic. -/
def cloudSetUserPoints (users : List User) (id : Int) (pts : ℚ) : List User :=
  users.map (fun u => if u.id == id then { u with penaltyPoints := pts } else u)

/-- `UPDATE reservations SET status = ... WHERE id = ...`. -/
def cloudSetReservationStatus (rs : List Reservation) (id : Int) (st : String) :
    List Reservation :=
  rs.map (fun r => if r.id == id then { r with status := st } else r)

/-- `SQLiteCloudStorage.updateReservation` for a `{ status }` update (the only
shape the routes send).  When the new status is "canceled" and
`ceil((reservationDate - now) / 1 week) >= 1`, it reverses the first penalty
attached to the reservation: user points drop to
`max(0, points - penalty.points)` and the penalty row is deleted; with no
attached penalty it `return`s early (undefined, status never written). -/
def cloudUpdateReservation (s : CloudState) (nowMs : Int) (id : Int)
    (upd : ReservationUpdate) : Option Reservation × CloudState :=
  match upd.status with
  | none => (s.reservations.find? (fun r => r.id == id), s)
  | some newStatus =>
    match s.reservations.find? (fun r => r.id == id) with
    | none => (none, s)
    | some existing =>
      if newStatus == "canceled" ∧
          1 ≤ jsCeilDiv (existing.date * msPerDay - nowMs) msPerWeek then
        match s.users.find? (fun u => u.id == existing.userId) with
        | none =>
          let s' := { s with
            reservations := cloudSetReservationStatus s.reservations id newStatus }
          (s'.reservations.find? (fun r => r.id == id), s')
        | some user =>
          match s.penalties.filter (fun p => p.reservationId == some id) with
          | [] => (none, s)
          | p :: _ =>
            let s1 := { s with
              users := (cloudSetUserPoints s.users user.id
                (max 0 (user.penaltyPoints - p.points))) }
            let s2 := { s1 with
              penalties := s1.penalties.filter (fun q => !(q.id == p.id)) }
            let s3 := { s2 with
              reservations := (cloudSetReservationStatus
                (cloudSetReservationStatus s2.reservations id "canceled") id newStatus) }
            (s3.reservations.find? (fun r => r.id == id), s3)
      else
        let s' := { s with
          reservations := cloudSetReservationStatus s.reservations id newStatus }
        (s'.reservations.find? (fun r => r.id == id), s')

/-- `SQLiteCloudStorage.deleteReservation`: when
`ceil((reservationDate - now) / 1 week) >= 1` it subtracts a hardcoded 1 point
from the user (clamped at 0) — without touching the penalty table — then
deletes the reservation row. -/
def cloudDeleteReservation (s : CloudState) (nowMs : Int) (id : Int) :
    Bool × CloudState :=
  match s.reservations.find? (fun r => r.id == id) with
  | none => (false, s)
  | some resv =>
    let s1 :=
      if 1 ≤ jsCeilDiv (resv.date * msPerDay - nowMs) msPerWeek then
        match s.users.find? (fun u => u.id == resv.userId) with
        | some user =>
          { s with users := (cloudSetUserPoints s.users user.id
              (max 0 (user.penaltyPoints - 1))) }
        | none => s
      else s
    (true, { s1 with reservations := s1.reservations.filter (fun r => !(r.id == id)) })

/-! ### The ledger invariant (spec section 3) -/

/-- Sum of the points of all Penalty rows attributed to a user. -/
def penaltySumFor (penalties : List Penalty) (uid : Int) : ℚ :=
  ((penalties.filter (fun p => p.userId == uid)).map (fun p => p.points)).sum

/-- Every user's running total equals the sum of their ledger rows. -/
def pointsMatchLedger (users : List User) (penalties : List Penalty) : Prop :=
  ∀ u ∈ users, u.penaltyPoints = penaltySumFor penalties u.id

/-! ### Concrete states used by witnesses and counterexamples -/

/-- Scenario D user: 89 points, not suspended. -/
def thresholdUser : User :=
  { id := 1, username := "user1", password := "password", role := "user",
    penaltyPoints := 89, suspended := false }

/-- Scenario D state: threshold setting stored as "90". -/
def scenarioDState : MemState :=
  { users := [thresholdUser], reservations := [], penalties := [],
    settings := [("AUTO_SUSPEND_PENALTY_THRESHOLD", "90")],
    currentReservationId := 1, currentPenaltyId := 1 }

/-- A suspended user holding 95 points, with no threshold setting stored
(default 90 applies). -/
def overLimitUser : User :=
  { id := 1, username := "user1", password := "password", role := "user",
    penaltyPoints := 95, suspended := true }

def overLimitState : MemState :=
  { users := [overLimitUser], reservations := [], penalties := [], settings := [],
    currentReservationId := 1, currentPenaltyId := 1 }

/-- A normal user, a suspended user, and an active reservation on slot "24"
for epoch day 5. -/
def freeUser : User :=
  { id := 1, username := "user1", password := "password", role := "user",
    penaltyPoints := 0, suspended := false }

def bannedUser : User :=
  { id := 2, username := "user2", password := "password", role := "user",
    penaltyPoints := 95, suspended := true }

def takenResv : Reservation :=
  { id := 1, userId := 1, slot := "24", date := 5, status := "active" }

def conflictState : MemState :=
  { users := [freeUser, bannedUser], reservations := [takenResv], penalties := [],
    settings := [], currentReservationId := 2, currentPenaltyId := 1 }

/-- An active reservation for epoch day 1 owned by a user with no penalties;
used at "now" = 2 hours before the reservation's midnight. -/
def lateCancelUser : User :=
  { id := 1, username := "user1", password := "password", role := "user",
    penaltyPoints := 0, suspended := false }

def lateCancelResv : Reservation :=
  { id := 1, userId := 1, slot := "24", date := 1, status := "active" }

def lateCancelState : MemState :=
  { users := [lateCancelUser], reservations := [lateCancelResv], penalties := [],
    settings := [], currentReservationId := 2, currentPenaltyId := 1 }

/-- A consistent cloud state: one user with 2 points, one active reservation a
week out, one attached 2-point penalty row. -/
def ledgerUser : User :=
  { id := 1, username := "user1", password := "password", role := "user",
    penaltyPoints := 2, suspended := false }

def ledgerResv : Reservation :=
  { id := 1, userId := 1, slot := "24", date := 7, status := "active" }

def ledgerPenalty : Penalty :=
  { id := 1, userId := 1, reservationId := some 1, ptype := "future_week",
    points := 2, reason := "Reserved 2 week(s) in advance" }

def ledgerState : CloudState :=
  { users := [ledgerUser], reservations := [ledgerResv], penalties := [ledgerPenalty] }

/-- Scenario F: one point charged on a reservation for epoch day 1, cancelled
20 hours before its midnight. -/
def earlyCancelUser : User :=
  { id := 1, username := "user1", password := "password", role := "user",
    penaltyPoints := 1, suspended := false }

def earlyCancelResv : Reservation :=
  { id := 1, userId := 1, slot := "24", date := 1, status := "active" }

def earlyCancelPenalty : Penalty :=
  { id := 1, userId := 1, reservationId := some 1, ptype := "future_week",
    points := 1, reason := "Reserved 1 week(s) in advance" }

def earlyCancelState : CloudState :=
  { users := [earlyCancelUser], reservations := [earlyCancelResv],
    penalties := [earlyCancelPenalty] }

/-- An already-cancelled reservation, dated a week ahead of "now" = 0, still
carrying an attached 5-point penalty row. -/
def cancelledUser : User :=
  { id := 1, username := "user1", password := "password", role := "user",
    penaltyPoints := 5, suspended := false }

def cancelledResv : Reservation :=
  { id := 1, userId := 1, slot := "24", date := 7, status := "canceled" }

def cancelledPenalty : Penalty :=
  { id := 1, userId := 1, reservationId := some 1, ptype := "future_week",
    points := 5, reason := "Reserved 2 week(s) in advance" }

def cancelledState : CloudState :=
  { users := [cancelledUser], reservations := [cancelledResv],
    penalties := [cancelledPenalty] }

/-- An already-cancelled past reservation with an attached penalty row (for
the amended idempotence statement). -/
def pastCancelledResv : Reservation :=
  { id := 1, userId := 1, slot := "24", date := 0, status := "canceled" }

def pastCancelledState : CloudState :=
  { users := [cancelledUser], reservations := [pastCancelledResv],
    penalties := [cancelledPenalty] }

/-! ### Helper lemmas (shared) -/

/-- The cloud reversal guard `ceil((res - now) / week) >= 1` holds exactly for
future-dated reservations. -/
theorem one_le_jsCeilDiv_week_iff (x : Int) : 1 ≤ jsCeilDiv x msPerWeek ↔ 0 < x := by
  unfold jsCeilDiv msPerWeek
  omega

/-- `find?` after a points rewrite: the first user matching `uid` is the old
one with its `penaltyPoints` replaced. -/
theorem find?_cloudSetUserPoints (users : List User) (uid : Int) (pts : ℚ)
    (user : User) (h : users.find? (fun u => u.id == uid) = some user) :
    (cloudSetUserPoints users uid pts).find? (fun u => u.id == uid)
      = some { user with penaltyPoints := pts } := by
  induction users with
  | nil => simp at h
  | cons a as ih =>
    by_cases ha : a.id == uid
    · have hau : a = user := by
        rw [List.find?_cons_of_pos (p := fun u : User => u.id == uid) _ ha] at h
        simpa using h
      subst hau
      simp only [cloudSetUserPoints, List.map_cons, if_pos ha]
      exact List.find?_cons_of_pos (p := fun u : User => u.id == uid) _ (by simpa using ha)
    · rw [List.find?_cons_of_neg (p := fun u : User => u.id == uid) _ (by simpa using ha)] at h
      simp only [cloudSetUserPoints, List.map_cons, if_neg ha]
      rw [List.find?_cons_of_neg (p := fun u : User => u.id == uid) _ (by simpa using ha)]
      simpa [cloudSetUserPoints] using ih h

/-- For a midnight-aligned timestamp the route handler's `setDate`-based week
start coincides with date-fns's `startOfWeek`. -/
theorem routesWeekStart_day_aligned (a : Int) :
    routesWeekStart (a * msPerDay) = startOfWeekMs (a * msPerDay) := by
  unfold routesWeekStart startOfWeekMs dowMs msPerDay
  omega

/-- On two Sunday-midnight week starts the route handler's
`ceil(ceil(|diff| / day) / 7)` agrees with date-fns's truncated division by one
week. -/
theorem getWeeksDifference_eq_ediv (a b : Int) :
    getWeeksDifference (startOfWeekMs (a * msPerDay)) (startOfWeekMs (b * msPerDay))
      = jsAbs ((startOfWeekMs (b * msPerDay) - startOfWeekMs (a * msPerDay)) / msPerWeek) := by
  unfold getWeeksDifference startOfWeekMs dowMs jsCeilDiv jsAbs msPerDay msPerWeek
  omega

/-! ### Claim theorems -/

/-- C1: the day-bucket booking evaluator with
`daysAhead = ceil((reservationDate - now) / 1 day)` returns 0 points whenever
`daysAhead ≤ 10`, and otherwise `(ceil(daysAhead / 10) - 1) * multiplier`
points with a reason reporting that period count; `daysAhead` = 11 and 20 give
1 period, 21 gives 2. -/
theorem booking_penalty_day_buckets (resMs nowMs : Int) (mult : ℚ) :
    (jsCeilDiv (resMs - nowMs) msPerDay ≤ 10 →
      (calculateReservationPenalty resMs nowMs mult).points = 0 ∧
      (calculateReservationPenalty resMs nowMs mult).ptype = "none") ∧
    (10 < jsCeilDiv (resMs - nowMs) msPerDay →
      (calculateReservationPenalty resMs nowMs mult).points
          = ((jsCeilDiv (jsCeilDiv (resMs - nowMs) msPerDay) 10 - 1 : Int) : ℚ) * mult ∧
      (calculateReservationPenalty resMs nowMs mult).reason
          = periodReason (jsCeilDiv (jsCeilDiv (resMs - nowMs) msPerDay) 10 - 1)) ∧
    (calculateReservationPenalty (11 * msPerDay) 0 mult).points = 1 * mult ∧
    (calculateReservationPenalty (20 * msPerDay) 0 mult).points = 1 * mult ∧
    (calculateReservationPenalty (21 * msPerDay) 0 mult).points = 2 * mult := by
  refine ⟨fun h => ?_, fun h => ?_, ?_, ?_, ?_⟩
  · rw [calculateReservationPenalty, if_pos h]
    exact ⟨rfl, rfl⟩
  · rw [calculateReservationPenalty, if_neg (not_le.mpr h)]
    exact ⟨rfl, rfl⟩
  · rw [calculateReservationPenalty,
      if_neg (by decide : ¬ jsCeilDiv (11 * msPerDay - 0) msPerDay ≤ 10)]
    show ((jsCeilDiv (jsCeilDiv (11 * msPerDay - 0) msPerDay) 10 - 1 : Int) : ℚ) * mult
        = 1 * mult
    rw [(by decide : jsCeilDiv (jsCeilDiv (11 * msPerDay - 0) msPerDay) 10 - 1 = (1 : Int))]
    norm_num
  · rw [calculateReservationPenalty,
      if_neg (by decide : ¬ jsCeilDiv (20 * msPerDay - 0) msPerDay ≤ 10)]
    show ((jsCeilDiv (jsCeilDiv (20 * msPerDay - 0) msPerDay) 10 - 1 : Int) : ℚ) * mult
        = 1 * mult
    rw [(by decide : jsCeilDiv (jsCeilDiv (20 * msPerDay - 0) msPerDay) 10 - 1 = (1 : Int))]
    norm_num
  · rw [calculateReservationPenalty,
      if_neg (by decide : ¬ jsCeilDiv (21 * msPerDay - 0) msPerDay ≤ 10)]
    show ((jsCeilDiv (jsCeilDiv (21 * msPerDay - 0) msPerDay) 10 - 1 : Int) : ℚ) * mult
        = 2 * mult
    rw [(by decide : jsCeilDiv (jsCeilDiv (21 * msPerDay - 0) msPerDay) 10 - 1 = (2 : Int))]
    norm_num

/-- Witness for C1: a reservation 15 days ahead yields
`(ceil(15/10) - 1) * 1 = 1` point. -/
theorem booking_penalty_day_buckets_witness :
    10 < jsCeilDiv (15 * msPerDay - 0) msPerDay ∧
    (calculateReservationPenalty (15 * msPerDay) 0 1).points
      = ((jsCeilDiv (jsCeilDiv (15 * msPerDay - 0) msPerDay) 10 - 1 : Int) : ℚ) * 1 :=
  ⟨by decide, ((booking_penalty_day_buckets (15 * msPerDay) 0 1).2.1 (by decide)).1⟩

/-- C6: the cancellation evaluator is exempt (0 points) whenever at least 12
hours remain until the reservation, and otherwise charges exactly the flat
multiplier with the fixed less-than-12-hours reason. -/
theorem cancellation_penalty_flat (resMs nowMs : Int) (mult : ℚ) :
    (12 * msPerHour ≤ resMs - nowMs →
      (calculateCancellationPenalty resMs nowMs mult).points = 0 ∧
      (calculateCancellationPenalty resMs nowMs mult).ptype = "none") ∧
    (resMs - nowMs < 12 * msPerHour →
      (calculateCancellationPenalty resMs nowMs mult).points = mult ∧
      (calculateCancellationPenalty resMs nowMs mult).reason
        = "Cancelled less than 12 hours before reservation") := by
  have key : ((12 : ℚ) ≤ ((resMs - nowMs : Int) : ℚ) / 3600000) ↔
      (12 * msPerHour ≤ resMs - nowMs) := by
    rw [le_div_iff₀ (by norm_num : (0 : ℚ) < 3600000)]
    simp only [msPerHour]
    constructor
    · intro h
      exact_mod_cast h
    · intro h
      exact_mod_cast h
  constructor
  · intro h
    rw [calculateCancellationPenalty, if_pos (key.mpr h)]
    exact ⟨rfl, rfl⟩
  · intro h
    rw [calculateCancellationPenalty, if_neg (fun hc => absurd (key.mp hc) (not_le.mpr h))]
    exact ⟨rfl, rfl⟩

/-- Witness for C6: a cancellation one hour before the reservation is charged
the flat multiplier with the fixed reason. -/
theorem cancellation_penalty_flat_witness :
    (3600000 - 0 : Int) < 12 * msPerHour ∧
    (calculateCancellationPenalty 3600000 0 1).points = 1 ∧
    (calculateCancellationPenalty 3600000 0 1).reason
      = "Cancelled less than 12 hours before reservation" :=
  ⟨by decide, (cancellation_penalty_flat 3600000 0 1).2 (by decide)⟩

/-- Concrete evaluation of the server handler's points: booking from Sunday
epoch day 20093 for epoch day 20108 (15 days ahead) gives 2 week-aligned
points. -/
theorem serverBookingPoints_example :
    serverBookingPoints 20108 (20093 * msPerDay) 1 = 2 := by
  rw [serverBookingPoints,
    if_pos (by decide :
      routesWeekStart (20093 * msPerDay) < routesWeekStart (20108 * msPerDay))]
  rw [(by decide : getWeeksDifference (routesWeekStart (20093 * msPerDay))
      (routesWeekStart (20108 * msPerDay)) = (2 : Int))]
  norm_num

/-- The client preview calculator agrees with the server on the same input. -/
theorem clientBookingPoints_example :
    clientBookingPoints 20108 (20093 * msPerDay) 1 = 2 := by
  rw [clientBookingPoints,
    if_neg (by decide :
      ¬ startOfWeekMs (20108 * msPerDay) ≤ startOfWeekMs (20093 * msPerDay))]
  rw [(by decide : jsAbs ((startOfWeekMs (20108 * msPerDay) -
      startOfWeekMs (20093 * msPerDay)) / msPerWeek) = (2 : Int))]
  norm_num

/-- The mirrored day-bucket calculator gives 1 point on the same input. -/
theorem part002BookingPoints_example :
    part002BookingPoints 20108 (20093 * msPerDay) 1 = 1 := by
  rw [part002BookingPoints, calculateReservationPenalty,
    if_neg (by decide :
      ¬ jsCeilDiv (20108 * msPerDay - 20093 * msPerDay) msPerDay ≤ 10)]
  show ((jsCeilDiv (jsCeilDiv (20108 * msPerDay - 20093 * msPerDay) msPerDay) 10 - 1 : Int) :
      ℚ) * 1 = 1
  rw [(by decide :
    jsCeilDiv (jsCeilDiv (20108 * msPerDay - 20093 * msPerDay) msPerDay) 10 - 1 = (1 : Int))]
  norm_num

/-- C7 counterexample: on 2025-01-05T00:00Z (epoch day 20093, a Sunday) a
booking for 2025-01-20 (epoch day 20108, 15 days ahead) gets 2 points from the
server's week-aligned handler but 1 point from the mirrored day-bucket
calculator, so the three calculators are not all equal. -/
theorem booking_variants_disagree :
    serverBookingPoints 20108 (20093 * msPerDay) 1
      ≠ part002BookingPoints 20108 (20093 * msPerDay) 1 := by
  rw [serverBookingPoints_example, part002BookingPoints_example]
  norm_num

/-- C7 amended: the server handler and the client preview calculator both
implement the week-aligned variant and agree on every midnight-aligned "now",
but the mirrored calculator implements the fixed-10-day-bucket variant and
differs from them (15 days ahead from a Sunday: 2 points versus 1), so the
deployment mixes the two variants. -/
theorem week_variants_agree_day_bucket_differs :
    (∀ (nowDays resDays : Int) (mult : ℚ),
        serverBookingPoints resDays (nowDays * msPerDay) mult
          = clientBookingPoints resDays (nowDays * msPerDay) mult) ∧
    serverBookingPoints 20108 (20093 * msPerDay) 1 = 2 ∧
    clientBookingPoints 20108 (20093 * msPerDay) 1 = 2 ∧
    part002BookingPoints 20108 (20093 * msPerDay) 1 = 1 := by
  refine ⟨fun nowDays resDays mult => ?_, serverBookingPoints_example,
    clientBookingPoints_example, part002BookingPoints_example⟩
  rw [serverBookingPoints, clientBookingPoints, routesWeekStart_day_aligned,
    routesWeekStart_day_aligned, getWeeksDifference_eq_ediv]
  rcases lt_or_ge (startOfWeekMs (nowDays * msPerDay)) (startOfWeekMs (resDays * msPerDay))
    with h | h
  · rw [if_pos h, if_neg (not_le.mpr h)]
  · rw [if_neg (not_lt.mpr h), if_pos h]

/-- C5: whenever `MemStorage.updateUser` runs with merged `penaltyPoints` at
or above the threshold it reads from Settings at evaluation time (default 90
when the `AUTO_SUSPEND_PENALTY_THRESHOLD` setting is unset), the stored user
comes out with `suspended = true`. -/
theorem update_user_auto_suspends (s : MemState) (id : Int) (upd : UserUpdate)
    (user : User) (t : Int)
    (hfind : s.users.find? (fun u => u.id == id) = some user)
    (hthr : getAutoSuspendThreshold s = some t)
    (hge : (t : ℚ) ≤ (applyUserUpdate user upd).penaltyPoints) :
    (settingLookup s.settings "AUTO_SUSPEND_PENALTY_THRESHOLD" = none → t = 90) ∧
    (memUpdateUser s id upd).1
      = some { applyUserUpdate user upd with suspended := true } := by
  constructor
  · intro hnone
    rw [getAutoSuspendThreshold, hnone] at hthr
    simpa using hthr.symm
  · simp only [memUpdateUser, hfind, hthr]
    rw [if_pos hge]

/-- Witness for C5 (scenario D): 89 points plus 1 with stored threshold "90"
ends suspended. -/
theorem update_user_auto_suspends_witness :
    (memUpdateUser scenarioDState 1 { penaltyPoints := some 90 }).1
      = some { applyUserUpdate thresholdUser { penaltyPoints := some 90 } with
          suspended := true } :=
  (update_user_auto_suspends scenarioDState 1 { penaltyPoints := some 90 }
    thresholdUser 90 (by decide) (by decide)
    (by simp [applyUserUpdate, thresholdUser])).2

/-- C10: every in-memory user update — for any combination of updated fields,
including an explicit `suspended := some false` from the admin unsuspend
route — re-checks the merged points against the auto-suspend threshold and
stores the user suspended whenever they are at or above it, so no update can
leave such a user unsuspended. -/
theorem no_update_unsuspends_over_threshold (s : MemState) (id : Int)
    (pw : Option String) (pp : Option ℚ) (sb : Option Bool)
    (user : User) (t : Int)
    (hfind : s.users.find? (fun u => u.id == id) = some user)
    (hthr : getAutoSuspendThreshold s = some t)
    (hge : (t : ℚ) ≤ (applyUserUpdate user ⟨pw, pp, sb⟩).penaltyPoints) :
    (memUpdateUser s id ⟨pw, pp, sb⟩).1
      = some { applyUserUpdate user ⟨pw, pp, sb⟩ with suspended := true } := by
  simp only [memUpdateUser, hfind, hthr]
  rw [if_pos hge]

/-- Witness for C10: an admin `{ suspended := false }` update on a 95-point
user with the default threshold 90 still stores `suspended = true`. -/
theorem no_update_unsuspends_over_threshold_witness :
    (memUpdateUser overLimitState 1 ⟨none, none, some false⟩).1
      = some { applyUserUpdate overLimitUser ⟨none, none, some false⟩ with
          suspended := true } :=
  no_update_unsuspends_over_threshold overLimitState 1 none none (some false)
    overLimitUser 90 (by decide) (by decide)
    (by norm_num [applyUserUpdate, overLimitUser])

/-- C8: the reservation-creation route fails with the user-not-found,
suspended, and slot-conflict outcomes on the corresponding preconditions, and
in each failure case returns the state unchanged (nothing persisted). -/
theorem create_reservation_failure_modes (s : MemState) (nowMs : Int)
    (userId : Int) (slot : String) (date : Int) :
    (s.users.find? (fun u => u.id == userId) = none →
      postReservation s nowMs userId slot date = (.notFound, s)) ∧
    (∀ user, s.users.find? (fun u => u.id == userId) = some user →
      user.suspended = true →
      postReservation s nowMs userId slot date = (.forbidden, s)) ∧
    (∀ user r, s.users.find? (fun u => u.id == userId) = some user →
      user.suspended = false →
      s.reservations.find?
          (fun q => q.slot == slot && q.date == date && q.status == "active") = some r →
      postReservation s nowMs userId slot date = (.conflict, s)) := by
  refine ⟨fun h => ?_, fun user hu hs => ?_, fun user r hu hs hr => ?_⟩
  · simp only [postReservation, h]
  · simp only [postReservation, hu]
    rw [if_pos hs]
  · simp only [postReservation, hu, hr]
    rw [if_neg (by simp [hs])]

/-- Witness for C8: on a state with user 1 (active), user 2 (suspended) and
slot "24" taken on day 5, all three failures fire with the state unchanged. -/
theorem create_reservation_failure_modes_witness :
    postReservation conflictState 0 99 "24" 5 = (.notFound, conflictState) ∧
    postReservation conflictState 0 2 "25" 9 = (.forbidden, conflictState) ∧
    postReservation conflictState 0 1 "24" 5 = (.conflict, conflictState) :=
  ⟨(create_reservation_failure_modes conflictState 0 99 "24" 5).1 rfl,
   (create_reservation_failure_modes conflictState 0 2 "25" 9).2.1 bannedUser rfl rfl,
   (create_reservation_failure_modes conflictState 0 1 "24" 5).2.2 freeUser takenResv
     rfl rfl rfl⟩

/-- C4 (code bug): the cancel route only rewrites the reservation status.
Failing input: lateCancelState cancelled with "now" two hours before the
reservation midnight — the cancellation policy is non-exempt
(late_cancellation), yet the code creates no Penalty and leaves the user's
points untouched (the handler never reads the clock at all). -/
theorem cancel_route_never_charges_late_penalty :
    (calculateCancellationPenalty (1 * msPerDay) (1 * msPerDay - 2 * msPerHour) 1).ptype
      = "late_cancellation" ∧
    ((postCancelMem lateCancelState 1).1.map (fun r => r.status)) = some "canceled" ∧
    (postCancelMem lateCancelState 1).2.penalties = lateCancelState.penalties ∧
    (postCancelMem lateCancelState 1).2.users = lateCancelState.users := by
  refine ⟨?_, rfl, rfl, rfl⟩
  have hc : ¬ (12 ≤ ((1 * msPerDay - (1 * msPerDay - 2 * msPerHour) : Int) : ℚ) / 3600000) := by
    norm_num [msPerDay, msPerHour]
  rw [calculateCancellationPenalty, if_neg hc]

/-- C2 (code bug): ledgerState satisfies the points-equal-ledger-sum
invariant (2 points, one attached 2-point row); `deleteReservation` of the
week-out reservation subtracts a hardcoded 1 point and leaves the penalty
row, so the invariant fails in the resulting state. -/
theorem delete_reservation_breaks_ledger :
    pointsMatchLedger ledgerState.users ledgerState.penalties ∧
    (cloudDeleteReservation ledgerState 0 1).2.penalties = [ledgerPenalty] ∧
    (cloudDeleteReservation ledgerState 0 1).2.users
      = [{ ledgerUser with penaltyPoints := 1 }] ∧
    ¬ pointsMatchLedger [{ ledgerUser with penaltyPoints := 1 }] [ledgerPenalty] := by
  have hfind : ledgerState.reservations.find? (fun r => r.id == 1) = some ledgerResv := rfl
  have hguard : 1 ≤ jsCeilDiv (ledgerResv.date * msPerDay - 0) msPerWeek := by decide
  have huser : ledgerState.users.find? (fun u => u.id == ledgerResv.userId)
      = some ledgerUser := rfl
  have hmax1 : max (0 : ℚ) (ledgerUser.penaltyPoints - 1) = 1 := by
    rw [show ledgerUser.penaltyPoints - 1 = 1 by norm_num [ledgerUser]]
    exact max_eq_right (by norm_num)
  refine ⟨?_, ?_, ?_, ?_⟩
  · intro u hu
    simp only [ledgerState, List.mem_singleton] at hu
    subst hu
    simp [penaltySumFor, ledgerState, ledgerPenalty, ledgerUser]
  · simp only [cloudDeleteReservation, hfind, huser]
    rw [if_pos hguard]
    rfl
  · simp only [cloudDeleteReservation, hfind, huser]
    rw [if_pos hguard]
    show cloudSetUserPoints ledgerState.users ledgerUser.id
        (max 0 (ledgerUser.penaltyPoints - 1))
      = [{ ledgerUser with penaltyPoints := 1 }]
    rw [hmax1]
    rfl
  · intro h
    have hv := h { ledgerUser with penaltyPoints := 1 } (by simp)
    simp [penaltySumFor, ledgerPenalty, ledgerUser] at hv

/-- C9 counterexample: cancelling the already-cancelled cancelledResv (status
"canceled", dated a week after "now", with a 5-point penalty row attached)
re-runs the reversal: the penalty row is deleted and the user's 5 points drop
to 0 — neither a no-op nor a rejection. -/
theorem cancel_cancelled_reservation_changes_state :
    cancelledResv.status ≠ "active" ∧
    (cloudUpdateReservation cancelledState 0 1 { status := some "canceled" }).2.penalties
      = [] ∧
    (cloudUpdateReservation cancelledState 0 1 { status := some "canceled" }).2.users
      = [{ cancelledUser with penaltyPoints := 0 }] := by
  have hfind : cancelledState.reservations.find? (fun r => r.id == 1)
      = some cancelledResv := rfl
  have hguard : 1 ≤ jsCeilDiv (cancelledResv.date * msPerDay - 0) msPerWeek := by decide
  have huser : cancelledState.users.find? (fun u => u.id == cancelledResv.userId)
      = some cancelledUser := rfl
  have hpen : cancelledState.penalties.filter (fun q => q.reservationId == some 1)
      = cancelledPenalty :: [] := rfl
  have hm : max (0 : ℚ) (cancelledUser.penaltyPoints - cancelledPenalty.points) = 0 := by
    rw [show cancelledUser.penaltyPoints - cancelledPenalty.points = 0 by
      norm_num [cancelledUser, cancelledPenalty]]
    exact max_self 0
  refine ⟨by decide, ?_, ?_⟩
  · simp only [cloudUpdateReservation, hfind, huser, hpen]
    rw [if_pos ⟨rfl, hguard⟩]
    rfl
  · simp only [cloudUpdateReservation, hfind, huser, hpen]
    rw [if_pos ⟨rfl, hguard⟩]
    show cloudSetUserPoints cancelledState.users cancelledUser.id
        (max 0 (cancelledUser.penaltyPoints - cancelledPenalty.points))
      = [{ cancelledUser with penaltyPoints := 0 }]
    rw [hm]
    rfl

/-- C9 amended: cancelling an already-cancelled reservation leaves the user
totals and the penalty ledger unchanged on the in-memory backend always, and
on the cloud backend whenever the reservation has no attached penalty row or
its date is not in the future; the code never inspects the stored status, so
the remaining case (cancelled, future-dated, row still attached) is refunded
again (see the counterexample). -/
theorem cancel_cancelled_no_ledger_change :
    (∀ (s : MemState) (id : Int),
      (postCancelMem s id).2.users = s.users ∧
      (postCancelMem s id).2.penalties = s.penalties) ∧
    (∀ (s : CloudState) (nowMs id : Int) (resv : Reservation),
      s.reservations.find? (fun r => r.id == id) = some resv →
      resv.status ≠ "active" →
      (s.penalties.filter (fun q => q.reservationId == some id) = [] ∨
        resv.date * msPerDay ≤ nowMs) →
      (cloudUpdateReservation s nowMs id { status := some "canceled" }).2.users
        = s.users ∧
      (cloudUpdateReservation s nowMs id { status := some "canceled" }).2.penalties
        = s.penalties) := by
  constructor
  · intro s id
    rcases h : s.reservations.find? (fun r => r.id == id) with _ | r <;>
      simp [postCancelMem, memUpdateReservation, h]
  · intro s nowMs id resv hres hst hcase
    rcases hcase with hpen | hpast
    · by_cases hfut : 1 ≤ jsCeilDiv (resv.date * msPerDay - nowMs) msPerWeek
      · rcases hu : s.users.find? (fun u => u.id == resv.userId) with _ | user
        · simp only [cloudUpdateReservation, hres, hu]
          rw [if_pos ⟨rfl, hfut⟩]
          exact ⟨rfl, rfl⟩
        · simp only [cloudUpdateReservation, hres, hu, hpen]
          rw [if_pos ⟨rfl, hfut⟩]
          exact ⟨rfl, rfl⟩
      · simp only [cloudUpdateReservation, hres]
        rw [if_neg (fun hand => hfut hand.2)]
        exact ⟨rfl, rfl⟩
    · have hfut : ¬ 1 ≤ jsCeilDiv (resv.date * msPerDay - nowMs) msPerWeek := by
        rw [one_le_jsCeilDiv_week_iff]
        omega
      simp only [cloudUpdateReservation, hres]
      rw [if_neg (fun hand => hfut hand.2)]
      exact ⟨rfl, rfl⟩

/-- Witness for C9 amended: a cancel on a state with no matching reservation
(in-memory), and a cancel of an already-cancelled past-dated reservation
(cloud), both leave users and penalties unchanged. -/
theorem cancel_cancelled_no_ledger_change_witness :
    (postCancelMem scenarioDState 1).2.users = scenarioDState.users ∧
    (cloudUpdateReservation pastCancelledState 5 1 { status := some "canceled" }).2.users
      = pastCancelledState.users ∧
    (cloudUpdateReservation pastCancelledState 5 1 { status := some "canceled" }).2.penalties
      = pastCancelledState.penalties :=
  ⟨(cancel_cancelled_no_ledger_change.1 scenarioDState 1).1,
   (cancel_cancelled_no_ledger_change.2 pastCancelledState 5 1 pastCancelledResv rfl
     (by decide) (Or.inr (by decide))).1,
   (cancel_cancelled_no_ledger_change.2 pastCancelledState 5 1 pastCancelledResv rfl
     (by decide) (Or.inr (by decide))).2⟩

/-- C3: when a "canceled" status update hits a future-dated reservation
(reversal guard `ceil weeks >= 1`, which 20 hours of lead time satisfies),
the cloud backend locates the first Penalty attached via `reservationId`,
sets the owning user's points to `max(0, points - penalty.points)` — hence
never negative — and deletes that Penalty row. -/
theorem cancel_reverses_future_booking_penalty (s : CloudState) (nowMs id : Int)
    (resv : Reservation) (user : User) (p : Penalty) (rest : List Penalty)
    (hres : s.reservations.find? (fun r => r.id == id) = some resv)
    (hadv : 1 ≤ jsCeilDiv (resv.date * msPerDay - nowMs) msPerWeek)
    (huser : s.users.find? (fun u => u.id == resv.userId) = some user)
    (hpen : s.penalties.filter (fun q => q.reservationId == some id) = p :: rest) :
    ((cloudUpdateReservation s nowMs id { status := some "canceled" }).2.users.find?
        (fun u => u.id == user.id))
      = some { user with penaltyPoints := max 0 (user.penaltyPoints - p.points) } ∧
    (0 : ℚ) ≤ max 0 (user.penaltyPoints - p.points) ∧
    (∀ q ∈ (cloudUpdateReservation s nowMs id { status := some "canceled" }).2.penalties,
      q.id ≠ p.id) := by
  have hid : user.id = resv.userId := by simpa using List.find?_some huser
  have huser' : s.users.find? (fun u => u.id == user.id) = some user := by
    rw [hid]
    exact huser
  refine ⟨?_, le_max_left 0 _, ?_⟩
  · simp only [cloudUpdateReservation, hres, huser, hpen]
    rw [if_pos ⟨rfl, hadv⟩]
    exact find?_cloudSetUserPoints s.users user.id _ user huser'
  · simp only [cloudUpdateReservation, hres, huser, hpen]
    rw [if_pos ⟨rfl, hadv⟩]
    intro q hq
    simp only [List.mem_filter] at hq
    intro hcontra
    simp [hcontra] at hq

/-- Witness for C3 (scenario F): the 1-point future-booking penalty on a
reservation cancelled 20 hours ahead is reversed — the user ends at
`max(0, 1 - 1) = 0` points and no row with the penalty's id remains. -/
theorem cancel_reverses_future_booking_penalty_witness :
    1 ≤ jsCeilDiv (earlyCancelResv.date * msPerDay - (1 * msPerDay - 20 * msPerHour))
      msPerWeek ∧
    ((cloudUpdateReservation earlyCancelState (1 * msPerDay - 20 * msPerHour) 1
        { status := some "canceled" }).2.users.find?
        (fun u => u.id == earlyCancelUser.id))
      = some { earlyCancelUser with
          penaltyPoints := max 0 (earlyCancelUser.penaltyPoints - earlyCancelPenalty.points) } ∧
    (∀ q ∈ (cloudUpdateReservation earlyCancelState (1 * msPerDay - 20 * msPerHour) 1
        { status := some "canceled" }).2.penalties, q.id ≠ earlyCancelPenalty.id) :=
  ⟨by decide,
   (cancel_reverses_future_booking_penalty earlyCancelState (1 * msPerDay - 20 * msPerHour)
     1 earlyCancelResv earlyCancelUser earlyCancelPenalty [] rfl (by decide) rfl rfl).1,
   (cancel_reverses_future_booking_penalty earlyCancelState (1 * msPerDay - 20 * msPerHour)
     1 earlyCancelResv earlyCancelUser earlyCancelPenalty [] rfl (by decide) rfl rfl).2.2⟩

end Parkingslot
